import Mathlib

/-!
Shallow embedding of `tagcon/args.py` (django-ttag): the argument-declaration
and cleaning protocol.  Python values relevant to this module are modelled by
a closed inductive `Value`; Python exceptions by `PyError`
(`TemplateTagValidationError` vs. the builtin `TypeError` used for
configuration errors).  Dynamic dispatch of `self.clean` inside
`Arg.base_clean` is modelled by passing the `clean` function explicitly, which
matches the module's contract that subclasses override `clean` and never
`base_clean`.
-/

namespace Tagcon

/-- A Python class reference, identified by its module and name.  `mro` lists
the keys of the class and all of its ancestors, so `isinstance` and
`issubclass` checks become membership tests.  The contents of a dict and the
field values of a model instance are not represented because no operation of
`args.py` inspects them: `isinstance` and `int()` dispatch on the type alone. -/
structure PyClass where
  module : String
  clsName : String
  mro : List (String × String)
deriving Repr, DecidableEq

/-- Python exceptions raised by `args.py`: `TemplateTagValidationError`
(render-time validation failure) and the builtin `TypeError` raised from
`ModelInstanceArg.__init__` (a configuration error). -/
inductive PyError where
  | validation (msg : String)
  | typeErr (msg : String)
deriving Repr, DecidableEq

/-- The universe of Python values that can reach `base_clean` / `clean` in
this module: `None`, ints, strings (Python 2 `str`/`unicode` collapse to one
text type, matching the `basestring` check), lists, tuples, dicts (size only),
`datetime.date` / `datetime.time` / `datetime.datetime` instances, model
instances, and class objects (the latter only appear as the `model` option). -/
inductive Value where
  | vNone
  | vInt (n : Int)
  | vStr (s : String)
  | vList (xs : List Value)
  | vTuple (xs : List Value)
  | vDict (size : Nat)
  | vDate (y m d : Nat)
  | vTime (h mi s : Nat)
  | vDateTime (y m d h mi s : Nat)
  | vModelInst (cls : PyClass)
  | vClass (cls : PyClass)

/-- Python `isinstance(value, (list, tuple))`. -/
def Value.isListOrTuple : Value → Bool
  | .vList _ => true
  | .vTuple _ => true
  | _ => false

/-- Python `value is None`. -/
def Value.isNone : Value → Bool
  | .vNone => true
  | _ => false

/-- Python `isinstance(value, basestring)`. -/
def Value.isStr : Value → Bool
  | .vStr _ => true
  | _ => false

/-- Python `isinstance(value, datetime.date)`.  In Python, `datetime.datetime` is a
subclass of `datetime.date`, so datetime instances satisfy this check. -/
def Value.isDate : Value → Bool
  | .vDate _ _ _ => true
  | .vDateTime _ _ _ _ _ _ => true
  | _ => false

/-- Python `isinstance(value, datetime.time)`. -/
def Value.isTime : Value → Bool
  | .vTime _ _ _ => true
  | _ => false

/-- Python `isinstance(value, datetime.datetime)`. -/
def Value.isDateTime : Value → Bool
  | .vDateTime _ _ _ _ _ _ => true
  | _ => false

/-- Whether the value is a class object. -/
def Value.isClass : Value → Bool
  | .vClass _ => true
  | _ => false

/-- Python `isinstance(value, c)` for a model class `c`: the value is an instance
whose method-resolution order contains `c`. -/
def isinstanceOf (v : Value) (c : PyClass) : Bool :=
  match v with
  | .vModelInst ic => ic.mro.contains (c.module, c.clsName)
  | _ => false

/-- The key of `django.db.models.Model`. -/
def djangoModelKey : String × String := ("django.db.models.base", "Model")

/-- Python `issubclass(c, models.Model)`. -/
def isSubclassOfModel (c : PyClass) : Bool :=
  c.mro.contains djangoModelKey

/-- Python `"%s" % name` for the `name` attribute, which may be `None`. -/
def fmtName : Option String → String
  | none => "None"
  | some s => s

/-- Python whitespace as stripped by `int()` on strings. -/
def isPySpace (c : Char) : Bool :=
  c = ' ' || c = '\t' || c = '\n' || c = '\r' || c = '\x0b' || c = '\x0c'

/-- Strip leading and trailing whitespace from a character list. -/
def stripSpaces (cs : List Char) : List Char :=
  ((cs.dropWhile isPySpace).reverse.dropWhile isPySpace).reverse

/-- Read a nonempty all-digit character list as a natural number. -/
def digitsToNat (cs : List Char) : Option Nat :=
  if cs.isEmpty then none
  else if cs.all (fun c => c.isDigit) then
    some (cs.foldl (fun acc c => acc * 10 + (c.toNat - 48)) 0)
  else none

/-- Python `int(s)` for a string `s`: strip whitespace, optional sign, digits. -/
def strToInt (s : String) : Option Int :=
  match stripSpaces s.data with
  | '-' :: rest => (digitsToNat rest).map (fun n => -(n : Int))
  | '+' :: rest => (digitsToNat rest).map (fun n => (n : Int))
  | cs => (digitsToNat cs).map (fun n => (n : Int))

/-- Python `int(value)`: `none` models the `TypeError` / `ValueError` raised by the
builtin on values it cannot convert. -/
def pyInt : Value → Option Int
  | .vInt n => some n
  | .vStr s => strToInt s
  | _ => none

mutual

/-- Python `repr(value)` (`%r` formatting), as far as its exact text matters: ints,
strings and `None` follow Python; containers and instances are rendered
recursively in Python list/tuple style. -/
def pyRepr : Value → String
  | .vNone => "None"
  | .vInt n => toString n
  | .vStr s => "\x27" ++ s ++ "\x27"
  | .vList xs => "[" ++ pyReprList xs ++ "]"
  | .vTuple xs => "(" ++ pyReprList xs ++ (if xs.length = 1 then ",)" else ")")
  | .vDict _ => "\x7b...\x7d"
  | .vDate y m d =>
      "datetime.date(" ++ toString y ++ ", " ++ toString m ++ ", " ++ toString d ++ ")"
  | .vTime h mi s =>
      "datetime.time(" ++ toString h ++ ", " ++ toString mi ++ ", " ++ toString s ++ ")"
  | .vDateTime y m d h mi s =>
      "datetime.datetime(" ++ toString y ++ ", " ++ toString m ++ ", " ++ toString d ++
        ", " ++ toString h ++ ", " ++ toString mi ++ ", " ++ toString s ++ ")"
  | .vModelInst cls => "<" ++ cls.clsName ++ " object>"
  | .vClass cls => "<class \x27" ++ cls.module ++ "." ++ cls.clsName ++ "\x27>"

/-- Comma-separated `repr`s of the elements, Python style. -/
def pyReprList : List Value → String
  | [] => ""
  | [x] => pyRepr x
  | x :: xs => pyRepr x ++ ", " ++ pyReprList xs

end

/-- Configuration of one template tag argument (`Arg.__init__`). -/
structure Arg where
  name : Option String := none
  required : Bool := false
  default : Option Value := none
  null : Bool := false
  resolve : Bool := true
  multi : Bool := false
  keyword : Option String := none
  flag : Bool := false

/-- The message of the single-item gate in `Arg.base_clean`. -/
def singleItemMsg (a : Arg) : String :=
  "Value for \x27" ++ fmtName a.name ++ "\x27 must be a single item."

/-- Embedding of `Arg.base_clean(self, value)`.  The dynamically dispatched `self.clean` is
the parameter `cl`. -/
def Arg.base_clean (a : Arg) (cl : Value → Except PyError Value)
    (value : Value) : Except PyError Value :=
  if !a.multi && value.isListOrTuple then
    .error (.validation (singleItemMsg a))
  else if !value.isNone || !a.null then
    cl value
  else
    .ok value

/-- Embedding of `Arg.clean`: the default, identity. -/
def Arg.clean (_a : Arg) (value : Value) : Except PyError Value :=
  .ok value

/-- Embedding of `IntegerArg.clean`. -/
def IntegerArg.clean (a : Arg) (value : Value) : Except PyError Value :=
  match pyInt value with
  | some n => .ok (.vInt n)
  | none =>
      .error (.validation
        ("Value for \x27" ++ fmtName a.name ++ "\x27 must be an integer (got " ++
          pyRepr value ++ ")"))

/-- Embedding of `StringArg.clean`. -/
def StringArg.clean (a : Arg) (value : Value) : Except PyError Value :=
  if value.isStr then .ok value
  else
    .error (.validation ("Value for \x27" ++ fmtName a.name ++ "\x27 must be a string"))

/-- Embedding of `DateTimeArg.clean`. -/
def DateTimeArg.clean (a : Arg) (value : Value) : Except PyError Value :=
  if value.isDateTime then .ok value
  else
    .error (.validation
      ("Value for \x27" ++ fmtName a.name ++ "\x27 must be a datetime instance"))

/-- Embedding of `DateArg.clean`. -/
def DateArg.clean (a : Arg) (value : Value) : Except PyError Value :=
  if value.isDate then .ok value
  else
    .error (.validation
      ("Value for \x27" ++ fmtName a.name ++ "\x27 must be a date instance"))

/-- Embedding of `TimeArg.clean`. -/
def TimeArg.clean (a : Arg) (value : Value) : Except PyError Value :=
  if value.isTime then .ok value
  else
    .error (.validation
      ("Value for \x27" ++ fmtName a.name ++ "\x27 must be a time instance"))

/-- Embedding of how `ModelInstanceArg.__init__` handles the `model` keyword option:
popping a missing key raises `TypeError`; `issubclass` on a non-class raises
`TypeError`; a class that is not a `Model` subclass raises `TypeError`.  On
success the spec stores the class as `model_class`. -/
def ModelInstanceArg.init (model : Option Value) : Except PyError PyClass :=
  match model with
  | none => .error (.typeErr "A \x27model\x27 keyword argument is required")
  | some (.vClass m) =>
      if isSubclassOfModel m then .ok m
      else .error (.typeErr "\x27model\x27 must be a Model subclass")
  | some _ => .error (.typeErr "issubclass() arg 1 must be a class")

/-- Embedding of `ModelInstanceArg.clean`, with the stored `model_class`. -/
def ModelInstanceArg.clean (a : Arg) (model_class : PyClass)
    (value : Value) : Except PyError Value :=
  if isinstanceOf value model_class then .ok value
  else
    .error (.validation
      ("Value for \x27" ++ fmtName a.name ++ "\x27 must be an instance of " ++
        model_class.module ++ "." ++ model_class.clsName))

/-- Substring containment on character lists: `pat` occurs contiguously in
`s`. -/
def listContains (s pat : List Char) : Bool :=
  match s with
  | [] => pat.isEmpty
  | _ :: rest => pat.isPrefixOf s || listContains rest pat

/-- Substring containment on strings. -/
def strContains (s pat : String) : Bool :=
  listContains s.data pat.data

/-- The `clean` methods of the six typed specs, for a fixed configuration
`a` (and `model_class` `mc` for `ModelInstanceArg`). -/
def typedCleans (a : Arg) (mc : PyClass) : List (Value → Except PyError Value) :=
  [IntegerArg.clean a, StringArg.clean a, DateArg.clean a, TimeArg.clean a,
   DateTimeArg.clean a, ModelInstanceArg.clean a mc]

theorem isPrefixOf_append_self (p y : List Char) : p.isPrefixOf (p ++ y) = true := by
  induction p with
  | nil => simp [List.isPrefixOf]
  | cons a t ih => simp [List.isPrefixOf, ih]

theorem listContains_nil_pat (s : List Char) : listContains s [] = true := by
  cases s <;> simp [listContains, List.isPrefixOf, List.isEmpty]

theorem listContains_append_mid (x pat y : List Char) :
    listContains (x ++ pat ++ y) pat = true := by
  induction x with
  | nil =>
    simp only [List.nil_append]
    cases pat with
    | nil => exact listContains_nil_pat y
    | cons p ps =>
      rw [List.cons_append]
      show ((p :: ps).isPrefixOf (p :: (ps ++ y)) || listContains (ps ++ y) (p :: ps)) = true
      rw [show p :: (ps ++ y) = (p :: ps) ++ y from rfl, isPrefixOf_append_self]
      simp
  | cons a t ih =>
    rw [List.cons_append]
    show (pat.isPrefixOf (a :: (t ++ pat ++ y)) || listContains (t ++ pat ++ y) pat) = true
    rw [Bool.or_eq_true]
    exact Or.inr ih

theorem strContains_mid (x pat y : String) : strContains (x ++ pat ++ y) pat = true := by
  show listContains (x ++ pat ++ y).data pat.data = true
  have h : (x ++ pat ++ y).data = x.data ++ pat.data ++ y.data := by
    simp [String.data_append]
  rw [h]
  exact listContains_append_mid _ _ _

theorem isPrefixOf_append_of_isPrefixOf (p s t : List Char) (h : p.isPrefixOf s = true) :
    p.isPrefixOf (s ++ t) = true := by
  induction p generalizing s with
  | nil => simp [List.isPrefixOf]
  | cons a ps ih =>
    cases s with
    | nil => simp [List.isPrefixOf] at h
    | cons b bs =>
      simp only [List.cons_append, List.isPrefixOf, Bool.and_eq_true] at h ⊢
      exact ⟨h.1, ih bs h.2⟩

theorem listContains_append_right (s t pat : List Char) (h : listContains s pat = true) :
    listContains (s ++ t) pat = true := by
  induction s with
  | nil =>
    have hp : pat = [] := by cases pat <;> simp_all [listContains, List.isEmpty]
    subst hp
    exact listContains_nil_pat _
  | cons a s ih =>
    rw [List.cons_append]
    show (pat.isPrefixOf (a :: (s ++ t)) || listContains (s ++ t) pat) = true
    have h2 : (pat.isPrefixOf (a :: s) || listContains s pat) = true := h
    rw [Bool.or_eq_true] at h2 ⊢
    rcases h2 with h1 | h1
    · exact Or.inl (isPrefixOf_append_of_isPrefixOf _ (a :: s) t h1)
    · exact Or.inr (ih h1)

theorem strContains_append_right (s t pat : String) (h : strContains s pat = true) :
    strContains (s ++ t) pat = true := by
  show listContains (s ++ t).data pat.data = true
  rw [show (s ++ t).data = s.data ++ t.data from by simp [String.data_append]]
  exact listContains_append_right _ _ _ h


/-- Claim C1: for any spec with `multi = false`, `base_clean` on any list or
tuple raises ValidationError with the "must be a single item" message,
whatever the elements are, for every possible `clean` and any `null`
setting (the gate fires before the null bypass and before `clean`). -/
theorem base_clean_single_item_gate (a : Arg) (cl : Value → Except PyError Value)
    (xs ys : List Value) (h : a.multi = false) :
    a.base_clean cl (.vList xs) =
      .error (.validation ("Value for \x27" ++ fmtName a.name ++ "\x27 must be a single item.")) ∧
    a.base_clean cl (.vTuple ys) =
      .error (.validation ("Value for \x27" ++ fmtName a.name ++ "\x27 must be a single item.")) := by
  constructor <;> simp [Arg.base_clean, h, Value.isListOrTuple, singleItemMsg]

theorem base_clean_single_item_gate_witness :
    ({ name := some "x" } : Arg).multi = false ∧
    ({ name := some "x" } : Arg).base_clean (Arg.clean { name := some "x" }) (.vList [.vInt 1]) =
      .error (.validation "Value for \x27x\x27 must be a single item.") ∧
    ({ name := some "x", null := true } : Arg).base_clean
        (Arg.clean { name := some "x", null := true }) (.vTuple [.vNone]) =
      .error (.validation "Value for \x27x\x27 must be a single item.") :=
  ⟨rfl,
   (base_clean_single_item_gate { name := some "x" } _ [.vInt 1] [] rfl).1,
   (base_clean_single_item_gate { name := some "x", null := true } _ [] [.vNone] rfl).2⟩

/-- Claim C2: with `null = true`, `base_clean` maps the `None` sentinel to
itself without ever calling `clean` (the result is the same for every
`clean`); with `null = false`, the sentinel is handed to `clean` like any
other value. -/
theorem base_clean_null_sentinel (a : Arg) (cl : Value → Except PyError Value) :
    (a.null = true → a.base_clean cl .vNone = .ok .vNone) ∧
    (a.null = false → a.base_clean cl .vNone = cl .vNone) := by
  constructor <;> intro h <;>
    simp [Arg.base_clean, Value.isListOrTuple, Value.isNone, h]

theorem base_clean_null_sentinel_witness :
    ({ null := true } : Arg).null = true ∧
    ({ null := true } : Arg).base_clean (IntegerArg.clean { null := true }) .vNone = .ok .vNone ∧
    ({ } : Arg).null = false ∧
    ({ } : Arg).base_clean (IntegerArg.clean { }) .vNone = IntegerArg.clean { } .vNone :=
  ⟨rfl, (base_clean_null_sentinel { null := true } _).1 rfl,
   rfl, (base_clean_null_sentinel { } _).2 rfl⟩

/-- Claim C10: the null bypass applies only to the `None` sentinel itself:
with `null = true`, any non-`None` value that reaches past the single-item
gate (any value at all when `multi = true`, any non-list, non-tuple value
otherwise) is still handed to `clean` — including falsy values such as `0`,
the empty string, or an empty dict. -/
theorem base_clean_null_only_none (a : Arg) (cl : Value → Except PyError Value)
    (v : Value) (hnull : a.null = true) (hv : v.isNone = false)
    (hgate : a.multi = true ∨ v.isListOrTuple = false) :
    a.base_clean cl v = cl v := by
  rcases hgate with h | h <;> simp [Arg.base_clean, hv, h]

theorem base_clean_null_only_none_witness :
    ({ null := true } : Arg).null = true ∧
    ({ null := true } : Arg).base_clean (StringArg.clean { null := true }) (.vInt 0) =
      StringArg.clean { null := true } (.vInt 0) ∧
    ({ null := true } : Arg).base_clean (StringArg.clean { null := true }) (.vStr "") =
      StringArg.clean { null := true } (.vStr "") ∧
    ({ null := true } : Arg).base_clean (StringArg.clean { null := true }) (.vDict 0) =
      StringArg.clean { null := true } (.vDict 0) :=
  ⟨rfl,
   base_clean_null_only_none { null := true } _ (.vInt 0) rfl rfl (Or.inr rfl),
   base_clean_null_only_none { null := true } _ (.vStr "") rfl rfl (Or.inr rfl),
   base_clean_null_only_none { null := true } _ (.vDict 0) rfl rfl (Or.inr rfl)⟩


/-- Claim C9: for a spec with `multi = false` and a `clean` that never emits
the single-item message itself, `base_clean` fails with the single-item
ValidationError exactly when the value is a list or a tuple; in particular a
string, although a sequence of characters, passes the gate and is forwarded
to `clean`. -/
theorem base_clean_gate_iff_list_or_tuple (a : Arg) (cl : Value → Except PyError Value)
    (v : Value) (hm : a.multi = false)
    (hcl : ∀ u, cl u ≠ .error (.validation (singleItemMsg a))) :
    (a.base_clean cl v = .error (.validation (singleItemMsg a)) ↔
      v.isListOrTuple = true) ∧
    (∀ s, a.base_clean cl (.vStr s) = cl (.vStr s)) := by
  constructor
  · constructor
    · intro h
      cases hlt : v.isListOrTuple with
      | true => rfl
      | false =>
        exfalso
        rw [Arg.base_clean] at h
        rw [hm, hlt] at h
        rw [if_neg (by simp)] at h
        by_cases hn : (!v.isNone || !a.null) = true
        · rw [if_pos hn] at h
          exact hcl v h
        · rw [if_neg hn] at h
          exact Except.noConfusion h
    · intro h
      simp [Arg.base_clean, hm, h]
  · intro s
    simp [Arg.base_clean, hm, Value.isListOrTuple, Value.isNone]

theorem base_clean_gate_iff_list_or_tuple_witness :
    ({ name := some "x" } : Arg).multi = false ∧
    ({ name := some "x" } : Arg).base_clean (Arg.clean { name := some "x" }) (.vList []) =
      .error (.validation (singleItemMsg { name := some "x" })) ∧
    ({ name := some "x" } : Arg).base_clean (Arg.clean { name := some "x" }) (.vStr "hi") =
      Arg.clean { name := some "x" } (.vStr "hi") :=
  ⟨rfl,
   (base_clean_gate_iff_list_or_tuple { name := some "x" } _ (.vList []) rfl
      (fun _ h => Except.noConfusion h)).1.mpr rfl,
   (base_clean_gate_iff_list_or_tuple { name := some "x" } _ (.vList []) rfl
      (fun _ h => Except.noConfusion h)).2 "hi"⟩

/-- Claim C8: with `multi = true`, `base_clean` hands the whole sequence to
`clean` rather than cleaning element-wise: for `IntegerArg` the call fails on
every list — even a list of valid integers — because `int()` of a list always
fails; the result is never an element-wise cleaned list. -/
theorem base_clean_multi_whole_list (a : Arg) (xs : List Value) (h : a.multi = true) :
    a.base_clean (IntegerArg.clean a) (.vList xs) =
      .error (.validation ("Value for \x27" ++ fmtName a.name ++
        "\x27 must be an integer (got " ++ pyRepr (.vList xs) ++ ")")) := by
  simp [Arg.base_clean, h, Value.isListOrTuple, Value.isNone, IntegerArg.clean, pyInt]

theorem base_clean_multi_whole_list_witness :
    ({ name := some "age", multi := true } : Arg).multi = true ∧
    ({ name := some "age", multi := true } : Arg).base_clean
        (IntegerArg.clean { name := some "age", multi := true })
        (.vList [.vInt 1, .vInt 2]) =
      .error (.validation "Value for \x27age\x27 must be an integer (got [1, 2])") :=
  ⟨rfl, base_clean_multi_whole_list { name := some "age", multi := true } [.vInt 1, .vInt 2] rfl⟩


/-- Claim C5: `IntegerArg.clean` parses textual integers and accepts
integers: `clean("23") = 23`, `clean(101) = 101`, `clean("7b")` raises
ValidationError, and so does every value `int()` cannot convert. -/
theorem integerArg_clean_spec (a : Arg) :
    IntegerArg.clean a (.vStr "23") = .ok (.vInt 23) ∧
    IntegerArg.clean a (.vInt 101) = .ok (.vInt 101) ∧
    IntegerArg.clean a (.vStr "7b") =
      .error (.validation ("Value for \x27" ++ fmtName a.name ++
        "\x27 must be an integer (got " ++ pyRepr (.vStr "7b") ++ ")")) ∧
    (∀ v, pyInt v = none → ∃ m, IntegerArg.clean a v = .error (.validation m)) := by
  refine ⟨rfl, rfl, rfl, ?_⟩
  intro v hv
  refine ⟨"Value for \x27" ++ fmtName a.name ++ "\x27 must be an integer (got " ++
    pyRepr v ++ ")", ?_⟩
  simp [IntegerArg.clean, hv]

theorem integerArg_clean_spec_witness :
    IntegerArg.clean { name := some "age" } (.vStr "23") = .ok (.vInt 23) ∧
    pyInt .vNone = none ∧
    (∃ m, IntegerArg.clean { name := some "age" } .vNone = .error (.validation m)) :=
  ⟨(integerArg_clean_spec { name := some "age" }).1, rfl,
   (integerArg_clean_spec { name := some "age" }).2.2.2 .vNone rfl⟩

/-- Claim C3 counterexample: `DateArg.clean` on a combined date-time value
returns it unchanged instead of raising ValidationError, because in Python a
`datetime.datetime` is an instance of `datetime.date`. -/
theorem dateArg_accepts_datetime_counterexample :
    DateArg.clean { name := some "date" } (.vDateTime 2010 1 9 22 33 47) =
      .ok (.vDateTime 2010 1 9 22 33 47) := rfl

/-- Claim C3 (amended): `DateArg`, `TimeArg` and `DateTimeArg` `clean` are
the identity exactly on values passing their `isinstance` check and raise
ValidationError otherwise, where `DateArg`'s check also accepts combined
date-time values (a datetime is a date); a time-only value passed to
`DateArg` still fails. -/
theorem date_time_datetime_clean_spec (a : Arg) (v : Value) :
    (DateArg.clean a v = .ok v ↔ v.isDate = true) ∧
    (TimeArg.clean a v = .ok v ↔ v.isTime = true) ∧
    (DateTimeArg.clean a v = .ok v ↔ v.isDateTime = true) ∧
    (v.isDate = false → DateArg.clean a v =
      .error (.validation ("Value for \x27" ++ fmtName a.name ++ "\x27 must be a date instance"))) ∧
    (v.isTime = false → TimeArg.clean a v =
      .error (.validation ("Value for \x27" ++ fmtName a.name ++ "\x27 must be a time instance"))) ∧
    (v.isDateTime = false → DateTimeArg.clean a v =
      .error (.validation ("Value for \x27" ++ fmtName a.name ++ "\x27 must be a datetime instance"))) ∧
    (∀ h mi s, (Value.vTime h mi s).isDate = false) ∧
    (∀ y mo d h mi s, (Value.vDateTime y mo d h mi s).isDate = true) := by
  refine ⟨?_, ?_, ?_, ?_, ?_, ?_, fun h mi s => rfl, fun y mo d h mi s => rfl⟩
  · constructor
    · intro h
      by_contra hd
      rw [DateArg.clean, if_neg (by simpa using hd)] at h
      exact Except.noConfusion h
    · intro h
      simp [DateArg.clean, h]
  · constructor
    · intro h
      by_contra hd
      rw [TimeArg.clean, if_neg (by simpa using hd)] at h
      exact Except.noConfusion h
    · intro h
      simp [TimeArg.clean, h]
  · constructor
    · intro h
      by_contra hd
      rw [DateTimeArg.clean, if_neg (by simpa using hd)] at h
      exact Except.noConfusion h
    · intro h
      simp [DateTimeArg.clean, h]
  · intro h
    simp [DateArg.clean, h]
  · intro h
    simp [TimeArg.clean, h]
  · intro h
    simp [DateTimeArg.clean, h]

theorem date_time_datetime_clean_spec_witness :
    (Value.vTime 22 33 47).isDate = false ∧
    DateArg.clean { name := some "date" } (.vTime 22 33 47) =
      .error (.validation "Value for \x27date\x27 must be a date instance") ∧
    DateArg.clean { name := some "date" } (.vDate 2010 1 9) = .ok (.vDate 2010 1 9) ∧
    TimeArg.clean { name := some "time" } (.vTime 22 33 47) = .ok (.vTime 22 33 47) ∧
    DateTimeArg.clean { name := some "datetime" } (.vDateTime 2010 1 9 22 33 47) =
      .ok (.vDateTime 2010 1 9 22 33 47) ∧
    (Value.vDate 2010 1 9).isTime = false ∧
    DateArg.clean { name := some "date" } (.vDateTime 2010 1 9 22 33 47) =
      .ok (.vDateTime 2010 1 9 22 33 47) :=
  ⟨rfl,
   (date_time_datetime_clean_spec { name := some "date" } (.vTime 22 33 47)).2.2.2.1 rfl,
   (date_time_datetime_clean_spec { name := some "date" } (.vDate 2010 1 9)).1.mpr rfl,
   (date_time_datetime_clean_spec { name := some "time" } (.vTime 22 33 47)).2.1.mpr rfl,
   (date_time_datetime_clean_spec { name := some "datetime" }
      (.vDateTime 2010 1 9 22 33 47)).2.2.1.mpr rfl,
   rfl,
   (date_time_datetime_clean_spec { name := some "date" }
      (.vDateTime 2010 1 9 22 33 47)).1.mpr rfl⟩


/-- Claim C4 counterexample: `StringArg.clean` on `42` raises a
ValidationError whose message contains the argument name but not the
offending value (`repr(42)` is `"42"`, which does not occur in the
message). -/
theorem stringArg_message_omits_value_counterexample :
    StringArg.clean { name := some "name" } (.vInt 42) =
      .error (.validation "Value for \x27name\x27 must be a string") ∧
    pyRepr (.vInt 42) = "42" ∧
    strContains "Value for \x27name\x27 must be a string" "42" = false :=
  ⟨rfl, rfl, rfl⟩

/-- Claim C4 (amended): every ValidationError raised by a typed spec's
`clean` carries a message containing the argument's name; only
`IntegerArg`'s message also contains the `repr` of the offending value
(the other five report the name and the expected domain alone). -/
theorem clean_messages_contain_name (a : Arg) (mc : PyClass) (v : Value) :
    (∀ m, IntegerArg.clean a v = .error (.validation m) →
      strContains m (fmtName a.name) = true ∧ strContains m (pyRepr v) = true) ∧
    (∀ m, StringArg.clean a v = .error (.validation m) →
      strContains m (fmtName a.name) = true) ∧
    (∀ m, DateArg.clean a v = .error (.validation m) →
      strContains m (fmtName a.name) = true) ∧
    (∀ m, TimeArg.clean a v = .error (.validation m) →
      strContains m (fmtName a.name) = true) ∧
    (∀ m, DateTimeArg.clean a v = .error (.validation m) →
      strContains m (fmtName a.name) = true) ∧
    (∀ m, ModelInstanceArg.clean a mc v = .error (.validation m) →
      strContains m (fmtName a.name) = true) := by
  refine ⟨?_, ?_, ?_, ?_, ?_, ?_⟩
  · intro m hm
    cases hpi : pyInt v with
    | some n => simp [IntegerArg.clean, hpi] at hm
    | none =>
      rw [IntegerArg.clean, hpi] at hm
      simp only [Except.error.injEq, PyError.validation.injEq] at hm
      subst hm
      constructor
      · exact strContains_append_right _ ")" _
          (strContains_append_right _ (pyRepr v) _
            (strContains_mid "Value for \x27" (fmtName a.name)
              "\x27 must be an integer (got "))
      · exact strContains_mid
          ("Value for \x27" ++ fmtName a.name ++ "\x27 must be an integer (got ")
          (pyRepr v) ")"
  · intro m hm
    rw [StringArg.clean] at hm
    split at hm
    · exact absurd hm (by simp)
    · simp only [Except.error.injEq, PyError.validation.injEq] at hm
      subst hm
      exact strContains_mid "Value for \x27" (fmtName a.name) "\x27 must be a string"
  · intro m hm
    rw [DateArg.clean] at hm
    split at hm
    · exact absurd hm (by simp)
    · simp only [Except.error.injEq, PyError.validation.injEq] at hm
      subst hm
      exact strContains_mid "Value for \x27" (fmtName a.name) "\x27 must be a date instance"
  · intro m hm
    rw [TimeArg.clean] at hm
    split at hm
    · exact absurd hm (by simp)
    · simp only [Except.error.injEq, PyError.validation.injEq] at hm
      subst hm
      exact strContains_mid "Value for \x27" (fmtName a.name) "\x27 must be a time instance"
  · intro m hm
    rw [DateTimeArg.clean] at hm
    split at hm
    · exact absurd hm (by simp)
    · simp only [Except.error.injEq, PyError.validation.injEq] at hm
      subst hm
      exact strContains_mid "Value for \x27" (fmtName a.name) "\x27 must be a datetime instance"
  · intro m hm
    rw [ModelInstanceArg.clean] at hm
    split at hm
    · exact absurd hm (by simp)
    · simp only [Except.error.injEq, PyError.validation.injEq] at hm
      subst hm
      exact strContains_append_right _ mc.clsName _
        (strContains_append_right _ "." _
          (strContains_append_right _ mc.module _
            (strContains_mid "Value for \x27" (fmtName a.name)
              "\x27 must be an instance of ")))

theorem clean_messages_contain_name_witness :
    IntegerArg.clean { name := some "age" } (.vStr "7b") =
      .error (.validation "Value for \x27age\x27 must be an integer (got \x277b\x27)") ∧
    strContains "Value for \x27age\x27 must be an integer (got \x277b\x27)" "age" = true ∧
    strContains "Value for \x27age\x27 must be an integer (got \x277b\x27)" "\x277b\x27" = true ∧
    StringArg.clean { name := some "name" } (.vInt 42) =
      .error (.validation "Value for \x27name\x27 must be a string") ∧
    strContains "Value for \x27name\x27 must be a string" "name" = true :=
  ⟨rfl,
   ((clean_messages_contain_name { name := some "age" } ⟨"m", "C", []⟩ (.vStr "7b")).1
      "Value for \x27age\x27 must be an integer (got \x277b\x27)" rfl).1,
   ((clean_messages_contain_name { name := some "age" } ⟨"m", "C", []⟩ (.vStr "7b")).1
      "Value for \x27age\x27 must be an integer (got \x277b\x27)" rfl).2,
   rfl,
   (clean_messages_contain_name { name := some "name" } ⟨"m", "C", []⟩ (.vInt 42)).2.1
      "Value for \x27name\x27 must be a string" rfl⟩


/-- Claim C6: `ModelInstanceArg` construction fails immediately with a
`TypeError` (a configuration error, not a render-time ValidationError) when
`model` is missing, not a class, or not a `Model` subclass; once constructed
with `model_class = c`, `clean` returns every instance of `c` unchanged and
raises ValidationError on every other value. -/
theorem modelInstanceArg_contract (a : Arg) (c : PyClass) (v w : Value) (m : PyClass)
    (hw : w.isClass = false) (hm : isSubclassOfModel m = false) :
    (∃ e, ModelInstanceArg.init none = .error (.typeErr e)) ∧
    (∃ e, ModelInstanceArg.init (some w) = .error (.typeErr e)) ∧
    (∃ e, ModelInstanceArg.init (some (.vClass m)) = .error (.typeErr e)) ∧
    (∀ mc, isSubclassOfModel mc = true → ModelInstanceArg.init (some (.vClass mc)) = .ok mc) ∧
    (isinstanceOf v c = true → ModelInstanceArg.clean a c v = .ok v) ∧
    (isinstanceOf v c = false →
      ∃ e, ModelInstanceArg.clean a c v = .error (.validation e)) := by
  refine ⟨⟨"A \x27model\x27 keyword argument is required", rfl⟩, ?_,
    ⟨"\x27model\x27 must be a Model subclass", ?_⟩, ?_, ?_, ?_⟩
  · cases w <;> simp_all [Value.isClass] <;> exact ⟨"issubclass() arg 1 must be a class", rfl⟩
  · simp [ModelInstanceArg.init, hm]
  · intro mc hmc
    simp [ModelInstanceArg.init, hmc]
  · intro h
    simp [ModelInstanceArg.clean, h]
  · intro h
    refine ⟨"Value for \x27" ++ fmtName a.name ++ "\x27 must be an instance of " ++
      c.module ++ "." ++ c.clsName, ?_⟩
    simp [ModelInstanceArg.clean, h]

theorem modelInstanceArg_contract_witness :
    (Value.vInt 5).isClass = false ∧
    isSubclassOfModel ⟨"m", "C", [("m", "C")]⟩ = false ∧
    (∃ e, ModelInstanceArg.init none = .error (.typeErr e)) ∧
    (∃ e, ModelInstanceArg.init (some (.vInt 5)) = .error (.typeErr e)) ∧
    (∃ e, ModelInstanceArg.init (some (.vClass ⟨"m", "C", [("m", "C")]⟩)) =
      .error (.typeErr e)) ∧
    ModelInstanceArg.init (some (.vClass
        ⟨"tests.base", "Link", [("tests.base", "Link"), ("django.db.models.base", "Model")]⟩)) =
      .ok ⟨"tests.base", "Link", [("tests.base", "Link"), ("django.db.models.base", "Model")]⟩ ∧
    ModelInstanceArg.clean { name := some "url" }
        ⟨"tests.base", "Link", [("tests.base", "Link"), ("django.db.models.base", "Model")]⟩
        (.vModelInst ⟨"tests.base", "Link", [("tests.base", "Link"), ("django.db.models.base", "Model")]⟩) =
      .ok (.vModelInst ⟨"tests.base", "Link", [("tests.base", "Link"), ("django.db.models.base", "Model")]⟩) ∧
    (∃ e, ModelInstanceArg.clean { name := some "url" }
        ⟨"tests.base", "Link", [("tests.base", "Link"), ("django.db.models.base", "Model")]⟩
        (.vInt 42) = .error (.validation e)) :=
  ⟨rfl, rfl,
   (modelInstanceArg_contract { name := some "url" }
      ⟨"tests.base", "Link", [("tests.base", "Link"), ("django.db.models.base", "Model")]⟩
      (.vInt 42) (.vInt 5) ⟨"m", "C", [("m", "C")]⟩ rfl rfl).1,
   (modelInstanceArg_contract { name := some "url" }
      ⟨"tests.base", "Link", [("tests.base", "Link"), ("django.db.models.base", "Model")]⟩
      (.vInt 42) (.vInt 5) ⟨"m", "C", [("m", "C")]⟩ rfl rfl).2.1,
   (modelInstanceArg_contract { name := some "url" }
      ⟨"tests.base", "Link", [("tests.base", "Link"), ("django.db.models.base", "Model")]⟩
      (.vInt 42) (.vInt 5) ⟨"m", "C", [("m", "C")]⟩ rfl rfl).2.2.1,
   (modelInstanceArg_contract { name := some "url" }
      ⟨"tests.base", "Link", [("tests.base", "Link"), ("django.db.models.base", "Model")]⟩
      (.vInt 42) (.vInt 5) ⟨"m", "C", [("m", "C")]⟩ rfl rfl).2.2.2.1
      ⟨"tests.base", "Link", [("tests.base", "Link"), ("django.db.models.base", "Model")]⟩ rfl,
   (modelInstanceArg_contract { name := some "url" }
      ⟨"tests.base", "Link", [("tests.base", "Link"), ("django.db.models.base", "Model")]⟩
      (.vModelInst ⟨"tests.base", "Link", [("tests.base", "Link"), ("django.db.models.base", "Model")]⟩)
      (.vInt 5) ⟨"m", "C", [("m", "C")]⟩ rfl rfl).2.2.2.2.1 rfl,
   (modelInstanceArg_contract { name := some "url" }
      ⟨"tests.base", "Link", [("tests.base", "Link"), ("django.db.models.base", "Model")]⟩
      (.vInt 42) (.vInt 5) ⟨"m", "C", [("m", "C")]⟩ rfl rfl).2.2.2.2.2 rfl⟩


/-- Every typed `clean` is stable: a successful output is never a list,
tuple or `None`, and cleaning it again succeeds with the same value. -/
theorem typedClean_stable (a : Arg) (mc : PyClass) (cl : Value → Except PyError Value)
    (hcl : cl ∈ typedCleans a mc) (v w : Value) (h : cl v = .ok w) :
    w.isListOrTuple = false ∧ w.isNone = false ∧ cl w = .ok w := by
  simp only [typedCleans, List.mem_cons, List.not_mem_nil, or_false] at hcl
  rcases hcl with rfl | rfl | rfl | rfl | rfl | rfl
  · cases hpi : pyInt v with
    | some n =>
      rw [IntegerArg.clean, hpi] at h
      simp only [Except.ok.injEq] at h
      subst h
      exact ⟨rfl, rfl, rfl⟩
    | none =>
      rw [IntegerArg.clean, hpi] at h
      exact Except.noConfusion h
  · rw [StringArg.clean] at h
    split at h
    · simp only [Except.ok.injEq] at h
      subst h
      cases v <;> simp_all [Value.isStr, StringArg.clean, Value.isListOrTuple, Value.isNone]
    · exact Except.noConfusion h
  · rw [DateArg.clean] at h
    split at h
    · simp only [Except.ok.injEq] at h
      subst h
      cases v <;> simp_all [Value.isDate, DateArg.clean, Value.isListOrTuple, Value.isNone]
    · exact Except.noConfusion h
  · rw [TimeArg.clean] at h
    split at h
    · simp only [Except.ok.injEq] at h
      subst h
      cases v <;> simp_all [Value.isTime, TimeArg.clean, Value.isListOrTuple, Value.isNone]
    · exact Except.noConfusion h
  · rw [DateTimeArg.clean] at h
    split at h
    · simp only [Except.ok.injEq] at h
      subst h
      cases v <;> simp_all [Value.isDateTime, DateTimeArg.clean, Value.isListOrTuple, Value.isNone]
    · exact Except.noConfusion h
  · rw [ModelInstanceArg.clean] at h
    split at h
    · simp only [Except.ok.injEq] at h
      subst h
      cases v <;> simp_all [isinstanceOf, ModelInstanceArg.clean, Value.isListOrTuple, Value.isNone]
    · exact Except.noConfusion h

/-- Claim C7: for every typed spec and every value on which `base_clean`
succeeds, applying `base_clean` to the result succeeds and returns it
unchanged — cleaning never further transforms an already-cleaned value. -/
theorem base_clean_idempotent (a : Arg) (mc : PyClass)
    (cl : Value → Except PyError Value) (hcl : cl ∈ typedCleans a mc)
    (v w : Value) (h : a.base_clean cl v = .ok w) :
    a.base_clean cl w = .ok w := by
  rw [Arg.base_clean] at h
  by_cases hg : (!a.multi && v.isListOrTuple) = true
  · rw [if_pos hg] at h
    exact Except.noConfusion h
  · rw [if_neg hg] at h
    by_cases hn : (!v.isNone || !a.null) = true
    · rw [if_pos hn] at h
      obtain ⟨hlt, hnn, hs⟩ := typedClean_stable a mc cl hcl v w h
      rw [Arg.base_clean, hlt]
      simp [hnn, hs]
    · rw [if_neg hn] at h
      simp only [Except.ok.injEq] at h
      subst h
      simp only [Bool.or_eq_true, Bool.not_eq_true'] at hn
      push_neg at hn
      obtain ⟨hn1, hn2⟩ := hn
      have hvn : v.isNone = true := by
        cases hb : v.isNone
        · exact absurd hb hn1
        · rfl
      have hvl : v.isListOrTuple = false := by
        cases v <;> simp_all [Value.isNone, Value.isListOrTuple]
      have hnull : a.null = true := by
        cases hb : a.null
        · exact absurd hb hn2
        · rfl
      rw [Arg.base_clean, hvl]
      simp [hvn, hnull]

theorem base_clean_idempotent_witness :
    IntegerArg.clean { name := some "age" } ∈
      typedCleans { name := some "age" } ⟨"m", "C", []⟩ ∧
    ({ name := some "age" } : Arg).base_clean
        (IntegerArg.clean { name := some "age" }) (.vStr "23") = .ok (.vInt 23) ∧
    ({ name := some "age" } : Arg).base_clean
        (IntegerArg.clean { name := some "age" }) (.vInt 23) = .ok (.vInt 23) :=
  ⟨List.mem_cons_self _ _, rfl,
   base_clean_idempotent { name := some "age" } ⟨"m", "C", []⟩
     (IntegerArg.clean { name := some "age" }) (List.mem_cons_self _ _)
     (.vStr "23") (.vInt 23) rfl⟩

end Tagcon
